import Mathlib

set_option autoImplicit false

/-!
Verification of the RNG core (src/lib/rng/rng.h and
src/lib/rng/auto_rng/auto_rng.cpp) against its specification.

The C++ classes are shallowly embedded: every stateful virtual operation of
the abstract RandomNumberGenerator contract becomes a function over an
explicit state type, exceptions become Except, and the external DRBG,
entropy sources and underlying generators are abstract parameters.
-/

namespace BotanRNG

/-- A byte value written into a caller-supplied buffer. -/
abbrev Byte := Nat

/-- A thrown C++ exception, identified by its message. -/
abbrev RngError := String

/--
The pure-virtual core of the RandomNumberGenerator contract (rng.h):
randomize, add_entropy, name, clear, is_seeded are pure virtual; reseed is
virtual with a default body (rng.cpp, outside this repository slice).
State is threaded explicitly; operations that can throw return Except.
The type ε stands for an Entropy_Sources reference.
-/
structure RNGOps (σ ε : Type) where
  randomize : σ → Nat → Except RngError (σ × List Byte)
  add_entropy : σ → List Byte → Except RngError σ
  name : σ → String
  clear : σ → σ
  is_seeded : σ → Bool
  reseed : σ → ε → Nat → Nat → Except RngError (σ × Nat)

/--
The interface the owned DRBG (BOTAN_AUTO_RNG_DRBG, an external collaborator)
offers to AutoSeeded_RNG: the generator contract plus force_reseed and an
overriding randomize_with_input, exactly the operations auto_rng.cpp calls
on m_rng.
-/
structure DRBGOps (σ ε : Type) extends RNGOps σ ε where
  randomize_with_input : σ → Nat → List Byte → Except RngError (σ × List Byte)
  force_reseed : σ → Except RngError σ

/-- RandomNumberGenerator::next_byte (rng.h): draw one byte via randomize. -/
def next_byte {σ ε : Type} (ops : RNGOps σ ε) (s : σ) :
    Except RngError (Byte × σ) :=
  match ops.randomize s 1 with
  | .error e => .error e
  | .ok (s2, bs) => .ok (bs.headD 0, s2)

/--
RandomNumberGenerator::next_nonzero_byte (rng.h): draw a byte, re-draw while
it is zero.  The C++ while-loop need not terminate, so the embedding carries
explicit fuel; running out of fuel yields the sentinel value (.ok none),
which models a run of the loop that has not terminated within fuel draws.
-/
def next_nonzero_byte {σ ε : Type} (ops : RNGOps σ ε) :
    Nat → σ → Except RngError (Option (Byte × σ))
  | 0, _ => .ok none
  | fuel + 1, s =>
    match next_byte ops s with
    | .error e => .error e
    | .ok (b, s2) =>
      if b = 0 then next_nonzero_byte ops fuel s2 else .ok (some (b, s2))

/-- The byte produced by the k-th successive next_byte draw (0-indexed). -/
def nth_byte_draw {σ ε : Type} (ops : RNGOps σ ε) (s : σ) :
    Nat → Except RngError (Byte × σ)
  | 0 => next_byte ops s
  | k + 1 =>
    match next_byte ops s with
    | .error e => .error e
    | .ok (_, s2) => nth_byte_draw ops s2 k

/--
Modelled from the spec: the default body of
RandomNumberGenerator::randomize_with_input lives in rng.cpp, which is not
part of this repository slice.  Per the spec it performs add_entropy with
the extra input and then randomize, in that order.
-/
def default_randomize_with_input {σ ε : Type} (ops : RNGOps σ ε) (s : σ)
    (out_len : Nat) (input : List Byte) : Except RngError (σ × List Byte) :=
  match ops.add_entropy s input with
  | .error e => .error e
  | .ok s2 => ops.randomize s2 out_len

namespace AutoSeeded

/-- AutoSeeded_RNG::is_seeded: delegates to the owned DRBG. -/
def is_seeded {σ ε : Type} (d : DRBGOps σ ε) (s : σ) : Bool :=
  d.is_seeded s

/-- AutoSeeded_RNG::clear: delegates to the owned DRBG. -/
def clear {σ ε : Type} (d : DRBGOps σ ε) (s : σ) : σ :=
  d.clear s

/-- AutoSeeded_RNG::name: delegates to the owned DRBG. -/
def name {σ ε : Type} (d : DRBGOps σ ε) (s : σ) : String :=
  d.name s

/-- AutoSeeded_RNG::add_entropy: delegates to the owned DRBG. -/
def add_entropy {σ ε : Type} (d : DRBGOps σ ε) (s : σ) (input : List Byte) :
    Except RngError σ :=
  d.add_entropy s input

/-- AutoSeeded_RNG::reseed: delegates to the owned DRBG. -/
def reseed {σ ε : Type} (d : DRBGOps σ ε) (s : σ) (srcs : ε)
    (poll_bits timeout : Nat) : Except RngError (σ × Nat) :=
  d.reseed s srcs poll_bits timeout

/-- AutoSeeded_RNG::randomize_with_input: delegates to the owned DRBG. -/
def randomize_with_input {σ ε : Type} (d : DRBGOps σ ε) (s : σ)
    (out_len : Nat) (ad : List Byte) : Except RngError (σ × List Byte) :=
  d.randomize_with_input s out_len ad

/--
Modelled from the spec: RandomNumberGenerator::randomize_with_ts_input
(body in rng.cpp, not in this repository slice) calls
this->randomize_with_input with a buffer of current high-resolution
timestamps; the timestamp buffer is the external input ts.  On an
AutoSeeded_RNG, virtual dispatch reaches
AutoSeeded_RNG::randomize_with_input.
-/
def randomize_with_ts_input {σ ε : Type} (d : DRBGOps σ ε) (ts : List Byte)
    (s : σ) (out_len : Nat) : Except RngError (σ × List Byte) :=
  randomize_with_input d s out_len ts

/-- AutoSeeded_RNG::randomize (auto_rng.cpp): calls randomize_with_ts_input. -/
def randomize {σ ε : Type} (d : DRBGOps σ ε) (ts : List Byte) (s : σ)
    (out_len : Nat) : Except RngError (σ × List Byte) :=
  randomize_with_ts_input d ts s out_len

/--
AutoSeeded_RNG::force_reseed (auto_rng.cpp): unconditional DRBG reseed,
then a zero-length draw, then the is_seeded check; throws
"AutoSeeded_RNG reseeding failed" when the check fails.
-/
def force_reseed {σ ε : Type} (d : DRBGOps σ ε) (s : σ) : Except RngError σ :=
  match d.force_reseed s with
  | .error e => .error e
  | .ok s1 =>
    match d.randomize s1 0 with
    | .error e => .error e
    | .ok (s2, _) =>
      if d.is_seeded s2 then .ok s2
      else .error "AutoSeeded_RNG reseeding failed"

/--
Construction of the external DRBG, one builder per constructor variant of
auto_rng.cpp: from an underlying generator (type ρ), from entropy sources
(type ε), or from both; each receives max_output_before_reseed verbatim.
MAC creation and DRBG allocation are folded into the builder, which may
fail (Except), and on success yields the initial DRBG state.
-/
structure DRBGBuilder (σ ε ρ : Type) where
  from_rng : ρ → Nat → Except RngError σ
  from_entropy : ε → Nat → Except RngError σ
  from_both : ρ → ε → Nat → Except RngError σ

/-- Shared tail of every AutoSeeded_RNG constructor: build the DRBG
(propagating any build failure) and run force_reseed on it. -/
def construct {σ ε : Type} (d : DRBGOps σ ε) (built : Except RngError σ) :
    Except RngError σ :=
  match built with
  | .error e => .error e
  | .ok s0 => force_reseed d s0

/-- AutoSeeded_RNG::AutoSeeded_RNG(RandomNumberGenerator&, size_t). -/
def mk_from_rng {σ ε ρ : Type} (B : DRBGBuilder σ ε ρ) (d : DRBGOps σ ε)
    (underlying : ρ) (max_output : Nat) : Except RngError σ :=
  construct d (B.from_rng underlying max_output)

/-- AutoSeeded_RNG::AutoSeeded_RNG(Entropy_Sources&, size_t). -/
def mk_from_entropy {σ ε ρ : Type} (B : DRBGBuilder σ ε ρ) (d : DRBGOps σ ε)
    (sources : ε) (max_output : Nat) : Except RngError σ :=
  construct d (B.from_entropy sources max_output)

/-- AutoSeeded_RNG::AutoSeeded_RNG(RandomNumberGenerator&, Entropy_Sources&, size_t). -/
def mk_from_both {σ ε ρ : Type} (B : DRBGBuilder σ ε ρ) (d : DRBGOps σ ε)
    (underlying : ρ) (sources : ε) (max_output : Nat) : Except RngError σ :=
  construct d (B.from_both underlying sources max_output)

/--
AutoSeeded_RNG::AutoSeeded_RNG(size_t), the default constructor: delegates
to the underlying-generator variant on the system RNG when the platform has
one (BOTAN_HAS_SYSTEM_RNG), else to the entropy-sources variant on the
global sources; the compile-time conditional is modelled by an Option.
-/
def mk_default {σ ε ρ : Type} (B : DRBGBuilder σ ε ρ) (d : DRBGOps σ ε)
    (system_rng : Option ρ) (global_sources : ε) (max_output : Nat) :
    Except RngError σ :=
  match system_rng with
  | some r => mk_from_rng B d r max_output
  | none => mk_from_entropy B d global_sources max_output

end AutoSeeded

/-- The contract operation a Serialized_RNG call touches on the owned
generator, recorded in lock-event traces. -/
inductive OpName where
  | randomize
  | is_seeded
  | clear
  | name
  | reseed
  | add_entropy
  | randomize_with_input
deriving DecidableEq

/-- One observable event of a Serialized_RNG call: the lock_guard acquiring
the mutex, a call on the owned generator, the lock_guard releasing the
mutex (also on an exception exit, per lock_guard semantics). -/
inductive LockEv where
  | acquire
  | inner (op : OpName)
  | release
deriving DecidableEq

/-- The event trace of one mutex-guarded forwarding call: acquire, touch the
owned generator once, release on scope exit. -/
def lockedTrace (op : OpName) : List LockEv :=
  [.acquire, .inner op, .release]

namespace Serialized

/-- Serialized_RNG::randomize (rng.h): lock, forward to m_rng, unlock. -/
def randomize {σ ε : Type} (ops : RNGOps σ ε) (s : σ) (len : Nat) :
    Except RngError (σ × List Byte) × List LockEv :=
  (ops.randomize s len, lockedTrace .randomize)

/-- Serialized_RNG::is_seeded (rng.h): lock, forward to m_rng, unlock. -/
def is_seeded {σ ε : Type} (ops : RNGOps σ ε) (s : σ) :
    Bool × List LockEv :=
  (ops.is_seeded s, lockedTrace .is_seeded)

/-- Serialized_RNG::clear (rng.h): lock, forward to m_rng, unlock. -/
def clear {σ ε : Type} (ops : RNGOps σ ε) (s : σ) : σ × List LockEv :=
  (ops.clear s, lockedTrace .clear)

/-- Serialized_RNG::name (rng.h): lock, forward to m_rng, unlock. -/
def name {σ ε : Type} (ops : RNGOps σ ε) (s : σ) : String × List LockEv :=
  (ops.name s, lockedTrace .name)

/-- Serialized_RNG::reseed (rng.h): lock, forward to m_rng, unlock. -/
def reseed {σ ε : Type} (ops : RNGOps σ ε) (s : σ) (srcs : ε)
    (poll_bits timeout : Nat) : Except RngError (σ × Nat) × List LockEv :=
  (ops.reseed s srcs poll_bits timeout, lockedTrace .reseed)

/-- Serialized_RNG::add_entropy (rng.h): lock, forward to m_rng, unlock. -/
def add_entropy {σ ε : Type} (ops : RNGOps σ ε) (s : σ) (input : List Byte) :
    Except RngError σ × List LockEv :=
  (ops.add_entropy s input, lockedTrace .add_entropy)

/--
Modelled from the spec: Serialized_RNG does not override
randomize_with_input, so a call runs the inherited default body (rng.cpp,
outside this slice), which per the spec performs this->add_entropy with the
extra input and then this->randomize; each of those virtually dispatches to
the mutex-guarded Serialized_RNG override, so the call is two separately
locked sub-operations.
-/
def randomize_with_input {σ ε : Type} (ops : RNGOps σ ε) (s : σ)
    (out_len : Nat) (input : List Byte) :
    Except RngError (σ × List Byte) × List LockEv :=
  match add_entropy ops s input with
  | (.error e, tr1) => (.error e, tr1)
  | (.ok s2, tr1) =>
    match randomize ops s2 out_len with
    | (res, tr2) => (res, tr1 ++ tr2)

/-- Progress of one thread through a mutex-guarded forwarding call:
outside any call, lock acquired, call on the owned generator in progress,
call returned and release pending. -/
inductive Phase where
  | ready
  | entered
  | inCall
  | leaving
deriving DecidableEq, Fintype

/-- Interleaving state of two threads (identified by Bool) repeatedly
performing mutex-guarded forwarding calls on one shared Serialized_RNG:
the mutex owner, if any, and each thread's phase. -/
structure LockSt where
  owner : Option Bool
  phT : Phase
  phF : Phase
deriving DecidableEq, Fintype

/-- Phase of thread t. -/
def ph (s : LockSt) (t : Bool) : Phase :=
  if t then s.phT else s.phF

/-- Replace the phase of thread t. -/
def setPh (s : LockSt) (t : Bool) (p : Phase) : LockSt :=
  if t then { s with phT := p } else { s with phF := p }

/--
One atomic step of thread t: a ready thread acquires the free mutex (or
blocks unchanged while the other thread holds it); inside the guarded
region the thread starts the call on the owned generator, finishes it, and
finally releases the mutex, returning to ready for its next call.
-/
def step (s : LockSt) (t : Bool) : LockSt :=
  match ph s t with
  | .ready =>
    match s.owner with
    | none => { setPh s t .entered with owner := some t }
    | some _ => s
  | .entered => setPh s t .inCall
  | .inCall => setPh s t .leaving
  | .leaving => { setPh s t .ready with owner := none }

/-- Initial state: mutex free, both threads outside any call. -/
def init : LockSt := ⟨none, .ready, .ready⟩

/-- Run a schedule (an arbitrary interleaving of the two threads). -/
def run : List Bool → LockSt → LockSt
  | [], s => s
  | t :: rest, s => run rest (step s t)

/-- Lock invariant: when the mutex is free both threads are outside the
guarded region; when thread t holds it, the other thread is outside. -/
def inv (s : LockSt) : Bool :=
  match s.owner with
  | none => s.phT == .ready && s.phF == .ready
  | some t => ph s (!t) == .ready

/-- Both threads are executing a call on the owned generator at once. -/
def bothTouching (s : LockSt) : Bool :=
  (s.phT == .inCall) && (s.phF == .inCall)

end Serialized

/-- Null_RNG (rng.h): never seeded, clear and add_entropy are no-ops,
randomize always throws "Null_RNG called".  The class does not override
reseed; the inherited default (rng.cpp, outside this slice) is modelled as
a placeholder returning the state unchanged — no claim depends on it. -/
def Null_RNG : RNGOps Unit Unit where
  randomize _ _ := .error "Null_RNG called"
  add_entropy s _ := .ok s
  name _ := "Null_RNG"
  clear _ := ()
  is_seeded _ := false
  reseed s _ bits _ := .ok (s, bits)

deriving instance DecidableEq for Except

/-- A call observed on a logging test double of the DRBG. -/
inductive DrbgCall where
  | force_reseed
  | randomize (len : Nat)
  | add_entropy
deriving DecidableEq

/-- Test double of the external DRBG over Nat states, with distinguishable
operations: used to evaluate the embedding on concrete inputs. -/
def mockDRBG : DRBGOps Nat Unit where
  randomize s len := .ok (s + 1, List.replicate len 1)
  add_entropy s input := .ok (s + input.length)
  name _ := "Mock_DRBG"
  clear _ := 0
  is_seeded s := decide (0 < s)
  reseed s _ bits _ := .ok (s + bits, bits)
  randomize_with_input s len input := .ok (s + 1 + input.length, List.replicate len 2)
  force_reseed s := .ok (s + 1000)

/-- Test double of the external DRBG builders: the initial DRBG state
records which seed source and threshold were passed. -/
def mockBuilder : AutoSeeded.DRBGBuilder Nat Unit Nat where
  from_rng r m := .ok (r + m)
  from_entropy _ m := .ok m
  from_both r _ m := .ok (r + m)

/-- Test double of the external DRBG that logs the order of the calls made
on it and reports itself seeded. -/
def seqLogDRBG : DRBGOps (List DrbgCall) Unit where
  randomize s len := .ok (s ++ [.randomize len], List.replicate len 0)
  add_entropy s _ := .ok (s ++ [.add_entropy])
  name _ := "Log_DRBG"
  clear _ := []
  is_seeded _ := true
  reseed s _ bits _ := .ok (s, bits)
  randomize_with_input s len _ := .ok (s, List.replicate len 0)
  force_reseed s := .ok (s ++ [.force_reseed])

/-- Test double of a wrapped generator for the Serialized_RNG model. -/
def mockRNG : RNGOps Nat Unit where
  randomize s len := .ok (s + 1, List.replicate len 1)
  add_entropy s _ := .ok (s + 10)
  name _ := "Mock_RNG"
  clear _ := 0
  is_seeded s := decide (0 < s)
  reseed s _ bits _ := .ok (s, bits)

/-- Test double generator whose k-th byte draw is k mod 256: its first draw
is zero and its second draw is nonzero. -/
def counterRNG : RNGOps Nat Unit where
  randomize s len := .ok (s + 1, List.replicate len (s % 256))
  add_entropy s _ := .ok s
  name _ := "Counter_RNG"
  clear _ := 0
  is_seeded _ := true
  reseed s _ bits _ := .ok (s, bits)

/-- Pathological test double whose every draw is the zero byte. -/
def zeroRNG : RNGOps Unit Unit where
  randomize _ len := .ok ((), List.replicate len 0)
  add_entropy s _ := .ok s
  name _ := "Zero_RNG"
  clear _ := ()
  is_seeded _ := true
  reseed s _ bits _ := .ok (s, bits)

/-- Test double that logs the order of the contract calls made on it. -/
def recorderRNG : RNGOps (List DrbgCall) Unit where
  randomize s len := .ok (s ++ [.randomize len], List.replicate len 0)
  add_entropy s _ := .ok (s ++ [.add_entropy])
  name _ := "Recorder_RNG"
  clear _ := []
  is_seeded _ := true
  reseed s _ bits _ := .ok (s, bits)

/-- Outcome dichotomy of AutoSeeded_RNG construction: a normally returned,
immediately seeded instance, or a thrown error and no instance. -/
def seededOrFailed {σ ε : Type} (d : DRBGOps σ ε)
    (result : Except RngError σ) : Prop :=
  (∃ s, result = .ok s ∧ AutoSeeded.is_seeded d s = true)
  ∨ (∃ e, result = .error e)

theorem serialized_inv_step : ∀ s : Serialized.LockSt,
    Serialized.inv s = true → ∀ t : Bool,
    Serialized.inv (Serialized.step s t) = true := by decide

theorem serialized_inv_run : ∀ (sched : List Bool) (s : Serialized.LockSt),
    Serialized.inv s = true →
    Serialized.inv (Serialized.run sched s) = true := by
  intro sched
  induction sched with
  | nil => intro s hs; exact hs
  | cons t rest ih =>
    intro s hs
    exact ih (Serialized.step s t) (serialized_inv_step s hs t)

theorem serialized_inv_excl : ∀ s : Serialized.LockSt,
    Serialized.inv s = true → Serialized.bothTouching s = false := by decide

theorem construct_dichotomy {σ ε : Type} (d : DRBGOps σ ε)
    (built : Except RngError σ) :
    seededOrFailed d (AutoSeeded.construct d built) := by
  unfold seededOrFailed AutoSeeded.construct
  cases built with
  | error e => exact Or.inr ⟨e, rfl⟩
  | ok s0 =>
    unfold AutoSeeded.force_reseed
    cases h1 : d.force_reseed s0 with
    | error e => exact Or.inr ⟨e, by simp [h1]⟩
    | ok s1 =>
      cases h2 : d.randomize s1 0 with
      | error e => exact Or.inr ⟨e, by simp [h1, h2]⟩
      | ok p =>
        obtain ⟨s2, bs⟩ := p
        by_cases hs : d.is_seeded s2
        · exact Or.inl ⟨s2, by simp [h1, h2, hs], hs⟩
        · exact Or.inr ⟨"AutoSeeded_RNG reseeding failed", by simp [h1, h2, hs]⟩

/-- Claim C1: for every AutoSeeded_RNG constructor variant and every outcome
of its seed sources (arbitrary external DRBG behaviour and build results),
either construction returns normally and is_seeded immediately afterwards
is true, or construction raises an error and no instance exists; there is
no third outcome. -/
theorem autoseeded_construction_seeded_or_fails :
    ∀ (σ ε ρ : Type) (B : AutoSeeded.DRBGBuilder σ ε ρ) (d : DRBGOps σ ε)
      (r : ρ) (es : ε) (sys : Option ρ) (max_output : Nat),
      seededOrFailed d (AutoSeeded.mk_from_rng B d r max_output)
    ∧ seededOrFailed d (AutoSeeded.mk_from_entropy B d es max_output)
    ∧ seededOrFailed d (AutoSeeded.mk_from_both B d r es max_output)
    ∧ seededOrFailed d (AutoSeeded.mk_default B d sys es max_output) := by
  intro σ ε ρ B d r es sys max_output
  refine ⟨construct_dichotomy d _, construct_dichotomy d _,
    construct_dichotomy d _, ?_⟩
  cases sys with
  | some r2 => exact construct_dichotomy d _
  | none => exact construct_dichotomy d _

/-- Claim C2, counterexample: AutoSeeded_RNG::randomize is not a direct
delegation to the owned DRBG's randomize — on a concrete DRBG it differs,
because it routes through randomize_with_ts_input and so calls the DRBG's
randomize_with_input with the timestamp buffer instead. -/
theorem autoseeded_randomize_not_direct_delegation :
    AutoSeeded.randomize mockDRBG [3] 0 1 ≠ mockDRBG.randomize 0 1 := by
  decide

/-- Claim C2, amended: is_seeded, clear, name, add_entropy, reseed and
randomize_with_input delegate to the owned DRBG with the same arguments and
no additional logic; randomize instead forwards through
randomize_with_ts_input, reaching the DRBG's randomize_with_input with the
timestamp buffer as extra input. -/
theorem autoseeded_delegation_surface :
    ∀ (σ ε : Type) (d : DRBGOps σ ε) (s : σ) (input ts : List Byte)
      (srcs : ε) (poll_bits timeout out_len : Nat),
      AutoSeeded.is_seeded d s = d.is_seeded s
    ∧ AutoSeeded.clear d s = d.clear s
    ∧ AutoSeeded.name d s = d.name s
    ∧ AutoSeeded.add_entropy d s input = d.add_entropy s input
    ∧ AutoSeeded.reseed d s srcs poll_bits timeout
        = d.reseed s srcs poll_bits timeout
    ∧ AutoSeeded.randomize_with_input d s out_len input
        = d.randomize_with_input s out_len input
    ∧ AutoSeeded.randomize d ts s out_len
        = d.randomize_with_input s out_len ts :=
  fun _ _ _ _ _ _ _ _ _ _ => ⟨rfl, rfl, rfl, rfl, rfl, rfl, rfl⟩

/-- Claim C4: Null_RNG::is_seeded returns false on every call, and
Null_RNG::randomize throws on every call, for every requested length
including zero; it never returns any bytes. -/
theorem null_rng_fail_fast :
    ∀ (s : Unit) (len : Nat),
      Null_RNG.is_seeded s = false
    ∧ Null_RNG.randomize s len = .error "Null_RNG called"
    ∧ (∀ out, Null_RNG.randomize s len ≠ .ok out) :=
  fun _ _ => ⟨rfl, rfl, fun _ h => nomatch h⟩

/-- Claim C7: AutoSeeded_RNG::randomize equals randomize_with_ts_input on
every input — every plain draw mixes the timestamp buffer in as extra
input, reaching the DRBG's randomize_with_input rather than its plain
randomize. -/
theorem autoseeded_randomize_eq_ts_input :
    ∀ (σ ε : Type) (d : DRBGOps σ ε) (ts : List Byte) (s : σ)
      (out_len : Nat),
      AutoSeeded.randomize d ts s out_len
        = AutoSeeded.randomize_with_ts_input d ts s out_len
    ∧ AutoSeeded.randomize_with_ts_input d ts s out_len
        = AutoSeeded.randomize_with_input d s out_len ts :=
  fun _ _ _ _ _ _ => ⟨rfl, rfl⟩

/-- Claim C10: the default AutoSeeded_RNG constructor seeds from the system
RNG when the platform provides one and from the global entropy sources
otherwise, forwarding max_output_before_reseed verbatim into the DRBG
build in both cases. -/
theorem autoseeded_default_seed_source :
    ∀ (σ ε ρ : Type) (B : AutoSeeded.DRBGBuilder σ ε ρ) (d : DRBGOps σ ε)
      (glob : ε) (max_output : Nat),
      (∀ r : ρ, AutoSeeded.mk_default B d (some r) glob max_output
          = AutoSeeded.mk_from_rng B d r max_output)
    ∧ AutoSeeded.mk_default B d (none : Option ρ) glob max_output
        = AutoSeeded.mk_from_entropy B d glob max_output
    ∧ (∀ r : ρ, AutoSeeded.mk_from_rng B d r max_output
          = AutoSeeded.construct d (B.from_rng r max_output))
    ∧ AutoSeeded.mk_from_entropy B d glob max_output
        = AutoSeeded.construct d (B.from_entropy glob max_output) :=
  fun _ _ _ _ _ _ _ => ⟨fun _ => rfl, rfl, fun _ => rfl, rfl⟩

/-- Claim C5: every AutoSeeded_RNG constructor variant ends in the same
post-construction tail — the DRBG's unconditional force_reseed, then a
zero-length draw, then the is_seeded check, raising the hard seeding error
exactly when is_seeded is false; the logging DRBG shows the call order. -/
theorem autoseeded_post_construction_sequence :
    ∀ (σ ε ρ : Type) (B : AutoSeeded.DRBGBuilder σ ε ρ) (d : DRBGOps σ ε)
      (s0 s1 s2 : σ) (probe : List Byte),
      d.force_reseed s0 = .ok s1 →
      d.randomize s1 0 = .ok (s2, probe) →
      (AutoSeeded.force_reseed d s0
          = .error "AutoSeeded_RNG reseeding failed"
        ↔ d.is_seeded s2 = false)
    ∧ (AutoSeeded.force_reseed d s0 = .ok s2 ↔ d.is_seeded s2 = true)
    ∧ (∀ r m, AutoSeeded.mk_from_rng B d r m
          = AutoSeeded.construct d (B.from_rng r m))
    ∧ (∀ es m, AutoSeeded.mk_from_entropy B d es m
          = AutoSeeded.construct d (B.from_entropy es m))
    ∧ (∀ r es m, AutoSeeded.mk_from_both B d r es m
          = AutoSeeded.construct d (B.from_both r es m))
    ∧ (∀ x, AutoSeeded.construct d (.ok x) = AutoSeeded.force_reseed d x)
    ∧ AutoSeeded.force_reseed seqLogDRBG []
        = .ok [DrbgCall.force_reseed, DrbgCall.randomize 0] := by
  intro σ ε ρ B d s0 s1 s2 probe h1 h2
  refine ⟨?_, ?_, fun _ _ => rfl, fun _ _ => rfl, fun _ _ _ => rfl,
    fun _ => rfl, by decide⟩
  · unfold AutoSeeded.force_reseed
    cases hs : d.is_seeded s2 <;> simp [h1, h2, hs]
  · unfold AutoSeeded.force_reseed
    cases hs : d.is_seeded s2 <;> simp [h1, h2, hs]

/-- Witness for claim C5: the hypotheses and conclusion evaluated on the
concrete test-double DRBG. -/
theorem autoseeded_post_construction_sequence_witness :
    mockDRBG.force_reseed 0 = .ok 1000
  ∧ mockDRBG.randomize 1000 0 = .ok (1001, [])
  ∧ (AutoSeeded.force_reseed mockDRBG 0 = .ok 1001
      ↔ mockDRBG.is_seeded 1001 = true) :=
  ⟨rfl, rfl,
    (autoseeded_post_construction_sequence Nat Unit Nat mockBuilder mockDRBG
      0 1000 1001 [] rfl rfl).2.1⟩

/-- Claim C6: a generator that does not specialize randomize_with_input
runs the default, which is add_entropy with the extra data followed by
randomize, in that order — shown both as the bind of the two steps and by
the call order on a logging generator. -/
theorem default_randomize_with_input_is_add_then_draw :
    ∀ (σ ε : Type) (ops : RNGOps σ ε) (s : σ) (out_len : Nat)
      (input : List Byte),
      default_randomize_with_input ops s out_len input
        = (ops.add_entropy s input).bind (fun s2 => ops.randomize s2 out_len)
    ∧ default_randomize_with_input recorderRNG [] 1 [9]
        = .ok ([DrbgCall.add_entropy, DrbgCall.randomize 1], [0]) := by
  intro σ ε ops s out_len input
  constructor
  · unfold default_randomize_with_input
    cases ops.add_entropy s input <;> rfl
  · decide

/-- Claim C3, counterexample: Serialized_RNG does not override
randomize_with_input, so that contract operation is not one
acquire-forward-release critical section on the owned generator; on a
concrete wrapped generator its observable lock trace is two separately
locked sub-operations (add_entropy, then randomize), releasing and
re-acquiring the mutex in the middle of the call. -/
theorem serialized_randomize_with_input_not_single_locked :
    (Serialized.randomize_with_input mockRNG 0 2 [5]).2
      ≠ lockedTrace .randomize_with_input
    ∧ (Serialized.randomize_with_input mockRNG 0 2 [5]).2
      = lockedTrace .add_entropy ++ lockedTrace .randomize := by
  constructor
  · decide
  · decide

/-- Claim C3, amended: each overridden Serialized_RNG operation (randomize,
is_seeded, clear, name, reseed, add_entropy) acquires the mutex, forwards
to the owned generator with the same arguments, releases on every exit path
and returns the forwarded result; the inherited randomize_with_input runs
as two such separately locked sub-operations (add_entropy then randomize);
and in every interleaving of two threads repeatedly making locked calls, no
two calls on the owned generator ever overlap. -/
theorem serialized_lock_discipline :
    ∀ (σ ε : Type) (ops : RNGOps σ ε) (s : σ)
      (len poll_bits timeout : Nat) (srcs : ε) (input : List Byte)
      (sched : List Bool),
      Serialized.randomize ops s len
        = (ops.randomize s len, lockedTrace .randomize)
    ∧ Serialized.is_seeded ops s
        = (ops.is_seeded s, lockedTrace .is_seeded)
    ∧ Serialized.clear ops s = (ops.clear s, lockedTrace .clear)
    ∧ Serialized.name ops s = (ops.name s, lockedTrace .name)
    ∧ Serialized.reseed ops s srcs poll_bits timeout
        = (ops.reseed s srcs poll_bits timeout, lockedTrace .reseed)
    ∧ Serialized.add_entropy ops s input
        = (ops.add_entropy s input, lockedTrace .add_entropy)
    ∧ Serialized.randomize_with_input ops s len input
        = (match ops.add_entropy s input with
           | .error e => (.error e, lockedTrace .add_entropy)
           | .ok s2 => (ops.randomize s2 len,
               lockedTrace .add_entropy ++ lockedTrace .randomize))
    ∧ Serialized.bothTouching (Serialized.run sched Serialized.init)
        = false := by
  intro σ ε ops s len poll_bits timeout srcs input sched
  refine ⟨rfl, rfl, rfl, rfl, rfl, rfl, ?_, ?_⟩
  · unfold Serialized.randomize_with_input Serialized.add_entropy
      Serialized.randomize
    cases ops.add_entropy s input <;> rfl
  · exact serialized_inv_excl _ (serialized_inv_run sched Serialized.init rfl)

/-- Claim C8: every terminating run of next_nonzero_byte returns a nonzero
byte; the loop draws single bytes via next_byte and re-draws exactly while
the drawn byte is zero (the unfolding equation of one loop iteration). -/
theorem next_nonzero_byte_nonzero :
    ∀ (σ ε : Type) (ops : RNGOps σ ε),
      (∀ (fuel : Nat) (s : σ) (b : Byte) (s2 : σ),
        next_nonzero_byte ops fuel s = .ok (some (b, s2)) → b ≠ 0)
    ∧ (∀ (fuel : Nat) (s : σ),
        next_nonzero_byte ops (fuel + 1) s
          = match next_byte ops s with
            | .error e => .error e
            | .ok (b, s2) =>
              if b = 0 then next_nonzero_byte ops fuel s2
              else .ok (some (b, s2))) := by
  intro σ ε ops
  constructor
  · intro fuel
    induction fuel with
    | zero =>
      intro s b s2 h
      simp [next_nonzero_byte] at h
    | succ n ih =>
      intro s b s2 h
      simp only [next_nonzero_byte] at h
      cases hnb : next_byte ops s with
      | error e => simp [hnb] at h
      | ok p =>
        obtain ⟨b0, s0⟩ := p
        simp only [hnb] at h
        by_cases hz : b0 = 0
        · rw [if_pos hz] at h
          exact ih s0 b s2 h
        · rw [if_neg hz] at h
          simp only [Except.ok.injEq, Option.some.injEq,
            Prod.mk.injEq] at h
          obtain ⟨hb, -⟩ := h
          subst hb
          exact hz
  · intro fuel s
    rfl

/-- Witness for claim C8: on the counter test double, the loop terminates
with the byte 1, which is nonzero. -/
theorem next_nonzero_byte_nonzero_witness :
    next_nonzero_byte counterRNG 5 0 = .ok (some (1, 2))
  ∧ (1 : Byte) ≠ 0 :=
  ⟨by decide,
    (next_nonzero_byte_nonzero Nat Unit counterRNG).1 5 0 1 2 (by decide)⟩

/-- Claim C9: next_nonzero_byte terminates (never exhausts its fuel) for
every generator whose successive next_byte draws eventually yield a
nonzero byte, with fuel one past that draw; and under the pathological
all-zero generator it never terminates — every fuel is exhausted. -/
theorem next_nonzero_byte_termination :
    (∀ (σ ε : Type) (ops : RNGOps σ ε) (k : Nat) (s : σ) (b : Byte)
      (s2 : σ),
      nth_byte_draw ops s k = .ok (b, s2) → b ≠ 0 →
      next_nonzero_byte ops (k + 1) s ≠ .ok none)
    ∧ (∀ fuel : Nat, next_nonzero_byte zeroRNG fuel () = .ok none) := by
  constructor
  · intro σ ε ops k
    induction k with
    | zero =>
      intro s b s2 h hb
      simp only [nth_byte_draw] at h
      simp [next_nonzero_byte, h, if_neg hb]
    | succ n ih =>
      intro s b s2 h hb
      simp only [nth_byte_draw] at h
      cases hnb : next_byte ops s with
      | error e =>
        simp only [next_nonzero_byte, hnb]
        simp
      | ok p =>
        obtain ⟨b0, s0⟩ := p
        simp only [hnb] at h
        simp only [next_nonzero_byte, hnb]
        by_cases hz : b0 = 0
        · rw [if_pos hz]
          exact ih s0 b s2 h hb
        · rw [if_neg hz]
          simp
  · intro fuel
    induction fuel with
    | zero => rfl
    | succ n ih =>
      have h0 : next_byte zeroRNG () = Except.ok ((0 : Byte), ()) := rfl
      simp only [next_nonzero_byte, h0]
      simpa using ih

/-- Witness for claim C9: the counter test double draws a nonzero byte on
its second draw, and the loop indeed does not exhaust its fuel. -/
theorem next_nonzero_byte_termination_witness :
    nth_byte_draw counterRNG 0 1 = .ok (1, 2)
  ∧ next_nonzero_byte counterRNG 2 0 ≠ .ok none :=
  ⟨by decide,
    next_nonzero_byte_termination.1 Nat Unit counterRNG 1 0 1 2 (by decide)
      (by decide)⟩

end BotanRNG
